import Mathlib

/-!
Shallow embedding of the bug-record reconciliation engine of
`varats-core/varats/provider/bug/bug.py` and
`varats-core/varats/provider/bug/bug_provider.py`.

Python runtime behaviour that the claims depend on is made explicit:
exceptions are modelled with `Except PyError`, Python `set` insertion is
modelled including the hash call it performs, and Python truthiness of
optional strings is modelled by `optStrTruthy`.
-/

namespace Vara

/-- Python exceptions that can escape the embedded code paths. -/
inductive PyError where
  | typeError (msg : String)
  | keyError (msg : String)
  | valueError (msg : String)
  | attributeError (msg : String)
deriving DecidableEq

/-- Model of a `pygit2.Commit`: its id (`hex`) and its `message`. -/
structure Commit where
  hex : String
  message : String
deriving DecidableEq

/-- Model of a github label (only the `name` field is read by the source). -/
structure Label where
  name : String
deriving DecidableEq

/-- Model of a github issue: its `number` and its `labels`. -/
structure Issue where
  number : Nat
  labels : List Label
deriving DecidableEq

/-- Model of a `github.IssueEvent.IssueEvent`: the fields read by the source
are `event`, `commit_id` (optional commit id string) and `issue`. -/
structure IssueEvent where
  event : String
  commit_id : Option String
  issue : Issue
deriving DecidableEq

/-- Model of a `pygit2.Repository` as the reconciliation engine uses it:
`commits` is the sequence produced by walking the history from HEAD in
`GIT_SORT_TIME` order, and `resolve` is the partial identifier lookup
backing `revparse_single`. -/
structure Repository where
  commits : List Commit
  resolve : String → Option Commit

/-- The data behind a project name: the issue events returned by
`_get_all_issue_events` and the repository returned by
`get_local_project_git`. -/
structure ProjectData where
  issue_events : List IssueEvent
  repo : Repository

/-- Python `revparse_single`: raises `KeyError` when the identifier does not
resolve in the repository. -/
def Repository.revparse_single (repo : Repository) (rev : String) :
    Except PyError Commit :=
  match repo.resolve rev with
  | some c => .ok c
  | none => .error (.keyError rev)

/-- Python truthiness of an `Optional[str]`: `None` and the empty string are
falsy, every other string is truthy. -/
def optStrTruthy : Option String → Bool
  | none => false
  | some s => !s.isEmpty

/-- Embeds `_has_closed_a_bug` (bug.py lines 101-118): false unless the
event is a `"closed"` event with a commit id; otherwise true iff some label
of the event's issue is named exactly `"bug"`. -/
def has_closed_a_bug (issue_event : IssueEvent) : Bool :=
  if issue_event.event ≠ "closed" ∨ issue_event.commit_id = none then
    false
  else
    issue_event.issue.labels.any fun label => decide (label.name = "bug")

/-- Python `str.index` for a single character, over code points: position of
the first occurrence, `none` when absent (where CPython raises
`ValueError`). -/
def pyStrIndex (c : Char) : List Char → Option Nat
  | [] => none
  | d :: rest =>
    if d = c then some 0 else Option.map (fun n => n + 1) (pyStrIndex c rest)

/-- Case folding of a code-point sequence, as `re.IGNORECASE` applies to the
ASCII letters occurring in the embedded pattern. -/
def lowerChars (cs : List Char) : List Char :=
  cs.map Char.toLower

/-- Containment of `pat` as a contiguous subsequence of a code-point list:
this is what `re.search` with a literal word pattern decides. -/
def containsSub (pat : List Char) : List Char → Bool
  | [] => pat.isPrefixOf ([] : List Char)
  | c :: rest => pat.isPrefixOf (c :: rest) || containsSub pat rest

/-- Embeds `_is_closing_message` (bug.py lines 121-139). The source runs
`commit_message[0:commit_message.index(chr(10))]`; `str.index` raises
`ValueError` when the message holds no line break, modelled by `none`.
Otherwise the result is `some` of whether `re.search` with the pattern
fix|fixed|fixes under `re.IGNORECASE` matches the first line, i.e. whether
some alternative occurs case-insensitively as a substring of it. -/
def is_closing_message (commit_message : String) : Option Bool :=
  match pyStrIndex '\n' commit_message.data with
  | none => none
  | some i =>
    let first_line := commit_message.data.take i
    some (containsSub "fix".data (lowerChars first_line) ||
          containsSub "fixed".data (lowerChars first_line) ||
          containsSub "fixes".data (lowerChars first_line))

/-- Embeds the `PygitBug` value class (bug.py lines 19-57): fixing commit,
ordered list of introducing commits, optional issue id. `__eq__` is
field-wise structural equality between values of the same class, which is
exactly the derived equality of this structure. -/
structure PygitBug where
  fixing_commit : Commit
  introducing_commits : List Commit
  issue_id : Option Nat
deriving DecidableEq

/-- Embeds the `RawBug` value class (bug.py lines 60-98): fixing commit
hash, ordered list of introducing commit hashes, optional issue id; `__eq__`
is field-wise structural equality as for `PygitBug`. -/
structure RawBug where
  fixing_commit : String
  introducing_commits : List String
  issue_id : Option Nat
deriving DecidableEq

/-- Transcription of `PygitBug.__eq__` (bug.py lines 45-52) for two values
of the same class: conjunction of the three field comparisons. (For values
of different classes the source returns `False`; the embedding separates
the two classes into two types, so only the same-class case is a Lean
statement.) -/
def PygitBug.pyEq (a other : PygitBug) : Bool :=
  decide (a.fixing_commit = other.fixing_commit) &&
  decide (a.introducing_commits = other.introducing_commits) &&
  decide (a.issue_id = other.issue_id)

/-- Transcription of `RawBug.__eq__` (bug.py lines 86-93), as for
`PygitBug.pyEq`. -/
def RawBug.pyEq (a other : RawBug) : Bool :=
  decide (a.fixing_commit = other.fixing_commit) &&
  decide (a.introducing_commits = other.introducing_commits) &&
  decide (a.issue_id = other.issue_id)

/-- CPython `hash` of a `str`, modelled as a deterministic fold; the claims
depend only on it being a total function of the string. -/
def pyhashStr (s : String) : Int :=
  Int.ofNat (s.data.foldl (fun h c => (h * 31 + c.toNat) % 2 ^ 61) 7)

/-- CPython `hash` of a `pygit2.Commit`, which hashes by object id. -/
def pyhashCommit (c : Commit) : Except PyError Int :=
  .ok (pyhashStr c.hex)

/-- CPython `hash` of an `Optional[int]`: total (ints hash to themselves up
to reduction; `None` has a fixed hash, here 0). -/
def pyhashOptNat : Option Nat → Except PyError Int
  | none => .ok 0
  | some n => .ok (Int.ofNat n)

/-- CPython `hash` of a `list`: lists do not define `__hash__`, so `hash`
raises `TypeError` without inspecting the elements. -/
def pyhashList {α : Type} (_xs : List α) : Except PyError Int :=
  .error (.typeError "unhashable type: list")

/-- CPython `hash` of a 3-tuple: hashes the components left to right,
propagating the first failure, then combines the component hashes. -/
def pyhashTuple3 (a b c : Except PyError Int) : Except PyError Int := do
  let ha ← a
  let hb ← b
  let hc ← c
  .ok (((ha + hb) * 1000003 + hc) % 2 ^ 61)

/-- Transcription of `PygitBug.__hash__` (bug.py lines 54-57): Python
`hash` of the tuple of the three fields. The second component is a Python
list, so the tuple hash raises `TypeError`. -/
def PygitBug.pyhash (bug : PygitBug) : Except PyError Int :=
  pyhashTuple3 (pyhashCommit bug.fixing_commit)
    (pyhashList bug.introducing_commits) (pyhashOptNat bug.issue_id)

/-- Transcription of `RawBug.__hash__` (bug.py lines 95-98), as for
`PygitBug.pyhash`. -/
def RawBug.pyhash (bug : RawBug) : Except PyError Int :=
  pyhashTuple3 (.ok (pyhashStr bug.fixing_commit))
    (pyhashList bug.introducing_commits) (pyhashOptNat bug.issue_id)

/-- Python `set.add` for `PygitBug` elements: hashes the element (which can
raise), then inserts unless an equal element is present. -/
def pySetAddPygit (s : List PygitBug) (bug : PygitBug) :
    Except PyError (List PygitBug) :=
  match bug.pyhash with
  | .error e => .error e
  | .ok _ => .ok (if s.any (fun x => PygitBug.pyEq x bug) then s else s ++ [bug])

/-- Python `set.add` for `RawBug` elements, as for `pySetAddPygit`. -/
def pySetAddRaw (s : List RawBug) (bug : RawBug) :
    Except PyError (List RawBug) :=
  match bug.pyhash with
  | .error e => .error e
  | .ok _ => .ok (if s.any (fun x => RawBug.pyEq x bug) then s else s ++ [bug])

/-- Embeds `_search_corresponding_pygit_bug` (bug.py lines 169-194):
resolves the closing identifier with `revparse_single` (whose `KeyError`
propagates — the source has no handler), leaves the introducing-commit list
empty (the search is a TODO stub in the source) and attaches the issue
number. -/
def search_corresponding_pygit_bug (closing_commit : String)
    (project_repo : Repository) (issue_number : Option Nat) :
    Except PyError PygitBug :=
  match project_repo.revparse_single closing_commit with
  | .error e => .error e
  | .ok closing_pycommit =>
    let introducing_pycommits : List Commit := []
    .ok (PygitBug.mk closing_pycommit introducing_pycommits issue_number)

/-- Embeds `_search_corresponding_raw_bug` (bug.py lines 197-219): builds
the `RawBug` directly from the closing identifier — the repository argument
is never used and the introducing list is the TODO stub, so this resolver
cannot fail. -/
def search_corresponding_raw_bug (closing_commit : String)
    (_project_repo : Repository) (issue_number : Option Nat) : RawBug :=
  let introducing_ids : List String := []
  RawBug.mk closing_commit introducing_ids issue_number

/-- The issue-event loop of `_filter_all_pygit_bugs` (bug.py lines
244-249): apply the filter to each event and `set.add` each produced bug;
any exception from the filter or from hashing propagates. -/
def processIssueEventsPygit
    (issue_filter_function : IssueEvent → Except PyError (Option PygitBug)) :
    List IssueEvent → List PygitBug → Except PyError (List PygitBug)
  | [], s => .ok s
  | issue_event :: rest, s =>
    match issue_filter_function issue_event with
    | .error e => .error e
    | .ok none => processIssueEventsPygit issue_filter_function rest s
    | .ok (some pybug) =>
      match pySetAddPygit s pybug with
      | .error e => .error e
      | .ok s2 => processIssueEventsPygit issue_filter_function rest s2

/-- The commit-history loop of `_filter_all_pygit_bugs` (bug.py lines
251-259), over the walk order of the repository. -/
def processCommitsPygit
    (commit_filter_function : Commit → Except PyError (Option PygitBug)) :
    List Commit → List PygitBug → Except PyError (List PygitBug)
  | [], s => .ok s
  | commit :: rest, s =>
    match commit_filter_function commit with
    | .error e => .error e
    | .ok none => processCommitsPygit commit_filter_function rest s
    | .ok (some pybug) =>
      match pySetAddPygit s pybug with
      | .error e => .error e
      | .ok s2 => processCommitsPygit commit_filter_function rest s2

/-- Embeds `_filter_all_pygit_bugs` (bug.py lines 222-261): issue events
first, then the commit walk, accumulating into one result set. -/
def filter_all_pygit_bugs (p : ProjectData)
    (issue_filter_function : IssueEvent → Except PyError (Option PygitBug))
    (commit_filter_function : Commit → Except PyError (Option PygitBug)) :
    Except PyError (List PygitBug) :=
  match processIssueEventsPygit issue_filter_function p.issue_events [] with
  | .error e => .error e
  | .ok s1 => processCommitsPygit commit_filter_function p.repo.commits s1

/-- The issue-event loop of `_filter_all_raw_bugs` (bug.py lines 286-291). -/
def processIssueEventsRaw
    (issue_filter_function : IssueEvent → Except PyError (Option RawBug)) :
    List IssueEvent → List RawBug → Except PyError (List RawBug)
  | [], s => .ok s
  | issue_event :: rest, s =>
    match issue_filter_function issue_event with
    | .error e => .error e
    | .ok none => processIssueEventsRaw issue_filter_function rest s
    | .ok (some rawbug) =>
      match pySetAddRaw s rawbug with
      | .error e => .error e
      | .ok s2 => processIssueEventsRaw issue_filter_function rest s2

/-- The commit-history loop of `_filter_all_raw_bugs` (bug.py lines
293-301). -/
def processCommitsRaw
    (commit_filter_function : Commit → Except PyError (Option RawBug)) :
    List Commit → List RawBug → Except PyError (List RawBug)
  | [], s => .ok s
  | commit :: rest, s =>
    match commit_filter_function commit with
    | .error e => .error e
    | .ok none => processCommitsRaw commit_filter_function rest s
    | .ok (some rawbug) =>
      match pySetAddRaw s rawbug with
      | .error e => .error e
      | .ok s2 => processCommitsRaw commit_filter_function rest s2

/-- Embeds `_filter_all_raw_bugs` (bug.py lines 264-303). -/
def filter_all_raw_bugs (p : ProjectData)
    (issue_filter_function : IssueEvent → Except PyError (Option RawBug))
    (commit_filter_function : Commit → Except PyError (Option RawBug)) :
    Except PyError (List RawBug) :=
  match processIssueEventsRaw issue_filter_function p.issue_events [] with
  | .error e => .error e
  | .ok s1 => processCommitsRaw commit_filter_function p.repo.commits s1

/-- The `accept_all_issue_pybugs` closure of `find_all_pygit_bugs` (bug.py
lines 317-325): the guard is `_has_closed_a_bug(e) and e.commit_id`, with
Python truthiness on the commit id; the guard guarantees the id is present,
so the embedded call reads it with a default. -/
def accept_all_issue_pybugs (p : ProjectData) (issue_event : IssueEvent) :
    Except PyError (Option PygitBug) :=
  if has_closed_a_bug issue_event && optStrTruthy issue_event.commit_id then
    (search_corresponding_pygit_bug (issue_event.commit_id.getD "") p.repo
      (some issue_event.issue.number)).map some
  else .ok none

/-- The `accept_all_commit_pybugs` closure of `find_all_pygit_bugs` (bug.py
lines 327-333): when `_is_closing_message` raises (no line break in the
message) the exception propagates out of the closure. -/
def accept_all_commit_pybugs (p : ProjectData) (commit : Commit) :
    Except PyError (Option PygitBug) :=
  match is_closing_message commit.message with
  | none => .error (.valueError "substring not found")
  | some b =>
    if b then (search_corresponding_pygit_bug commit.hex p.repo none).map some
    else .ok none

/-- Embeds `find_all_pygit_bugs` (bug.py lines 306-337). -/
def find_all_pygit_bugs (p : ProjectData) : Except PyError (List PygitBug) :=
  filter_all_pygit_bugs p (accept_all_issue_pybugs p) (accept_all_commit_pybugs p)

/-- The `accept_all_issue_rawbugs` closure of `find_all_raw_bugs` (bug.py
lines 351-359). -/
def accept_all_issue_rawbugs (p : ProjectData) (issue_event : IssueEvent) :
    Except PyError (Option RawBug) :=
  if has_closed_a_bug issue_event && optStrTruthy issue_event.commit_id then
    .ok (some (search_corresponding_raw_bug (issue_event.commit_id.getD "")
      p.repo (some issue_event.issue.number)))
  else .ok none

/-- The `accept_all_commit_rawbugs` closure of `find_all_raw_bugs` (bug.py
lines 361-365). -/
def accept_all_commit_rawbugs (p : ProjectData) (commit : Commit) :
    Except PyError (Option RawBug) :=
  match is_closing_message commit.message with
  | none => .error (.valueError "substring not found")
  | some b =>
    if b then .ok (some (search_corresponding_raw_bug commit.hex p.repo none))
    else .ok none

/-- Embeds `find_all_raw_bugs` (bug.py lines 340-369). -/
def find_all_raw_bugs (p : ProjectData) : Except PyError (List RawBug) :=
  filter_all_raw_bugs p (accept_all_issue_rawbugs p) (accept_all_commit_rawbugs p)

/-- Python `==` between a `pygit2.Commit` and a `str` (bug.py line 491
compares an introducing commit object against the identifier string):
neither class handles the other, so the comparison is always `False`. -/
def pyEqCommitStr (_c : Commit) (_s : String) : Bool :=
  false

/-- The issue closure of `find_pygit_bug_by_introduction` (bug.py lines
468-481): returns the bug only when the introducing-commit loop finds the
wanted id (comparing `introducing_pycommit.hex` against the string). -/
def accept_issue_pybug_with_certain_introduction (p : ProjectData)
    (introducing_commit : String) (issue_event : IssueEvent) :
    Except PyError (Option PygitBug) :=
  if has_closed_a_bug issue_event && optStrTruthy issue_event.commit_id then
    match search_corresponding_pygit_bug (issue_event.commit_id.getD "")
        p.repo (some issue_event.issue.number) with
    | .error e => .error e
    | .ok pybug =>
      if pybug.introducing_commits.any
          (fun c => decide (c.hex = introducing_commit)) then
        .ok (some pybug)
      else .ok none
  else .ok none

/-- The commit closure of `find_pygit_bug_by_introduction` (bug.py lines
483-493): here the loop compares the commit object itself against the
identifier string, which in Python is always `False`. -/
def accept_commit_pybug_with_certain_introduction (p : ProjectData)
    (introducing_commit : String) (commit : Commit) :
    Except PyError (Option PygitBug) :=
  match is_closing_message commit.message with
  | none => .error (.valueError "substring not found")
  | some b =>
    if b then
      match search_corresponding_pygit_bug commit.hex p.repo none with
      | .error e => .error e
      | .ok pybug =>
        if pybug.introducing_commits.any
            (fun c => pyEqCommitStr c introducing_commit) then
          .ok (some pybug)
        else .ok none
    else .ok none

/-- Embeds `find_pygit_bug_by_introduction` (bug.py lines 454-498). -/
def find_pygit_bug_by_introduction (p : ProjectData)
    (introducing_commit : String) : Except PyError (List PygitBug) :=
  filter_all_pygit_bugs p
    (accept_issue_pybug_with_certain_introduction p introducing_commit)
    (accept_commit_pybug_with_certain_introduction p introducing_commit)

/-- The issue closure of `find_raw_bug_by_introduction` (bug.py lines
515-528). -/
def accept_issue_rawbug_with_certain_introduction (p : ProjectData)
    (introducing_commit : String) (issue_event : IssueEvent) :
    Except PyError (Option RawBug) :=
  if has_closed_a_bug issue_event && optStrTruthy issue_event.commit_id then
    let rawbug := search_corresponding_raw_bug (issue_event.commit_id.getD "")
      p.repo (some issue_event.issue.number)
    if rawbug.introducing_commits.any
        (fun i => decide (i = introducing_commit)) then
      .ok (some rawbug)
    else .ok none
  else .ok none

/-- The commit closure of `find_raw_bug_by_introduction` (bug.py lines
530-540). -/
def accept_commit_rawbug_with_certain_introduction (p : ProjectData)
    (introducing_commit : String) (commit : Commit) :
    Except PyError (Option RawBug) :=
  match is_closing_message commit.message with
  | none => .error (.valueError "substring not found")
  | some b =>
    if b then
      let rawbug := search_corresponding_raw_bug commit.hex p.repo none
      if rawbug.introducing_commits.any
          (fun i => decide (i = introducing_commit)) then
        .ok (some rawbug)
      else .ok none
    else .ok none

/-- Embeds `find_raw_bug_by_introduction` (bug.py lines 501-545). -/
def find_raw_bug_by_introduction (p : ProjectData)
    (introducing_commit : String) : Except PyError (List RawBug) :=
  filter_all_raw_bugs p
    (accept_issue_rawbug_with_certain_introduction p introducing_commit)
    (accept_commit_rawbug_with_certain_introduction p introducing_commit)

/-- The top-level names bound in the module `varats.provider.bug.bug`
(transcribed from bug.py: its imports and its class and function
definitions). Python attribute access on the module succeeds exactly for
these names. -/
def bugModuleNames : List String :=
  ["re", "tp", "pygit2", "Github", "IssueEvent", "PaginatedList",
   "Repository", "get_local_project_git_path", "get_local_project_git",
   "get_cached_github_object_list",
   "PygitBug", "RawBug", "_has_closed_a_bug", "_is_closing_message",
   "_get_all_issue_events", "_search_corresponding_pygit_bug",
   "_search_corresponding_raw_bug", "_filter_all_pygit_bugs",
   "_filter_all_raw_bugs", "find_all_pygit_bugs", "find_all_raw_bugs",
   "find_pygit_bug_by_fix", "find_raw_bug_by_fix",
   "find_pygit_bug_by_introduction", "find_raw_bug_by_introduction"]

/-- Python attribute access `bug.<attr>` on the bug module: the name when it
is bound, `AttributeError` otherwise. -/
def bugModuleAttr (attr : String) : Except PyError String :=
  if attr ∈ bugModuleNames then .ok attr else .error (.attributeError attr)

/-- Embeds `BugProvider.find_all_pygit_bugs` (bug_provider.py lines 51-66).
The body starts from an empty set; each branch evaluates
`resulting_bugs.union(bug.<name>(...))` — the attribute access on the bug
module comes first, and neither accessed name (`find_all_issue_pygit_bugs`,
`find_all_commit_message_pygit_bugs`) is bound in bug.py, so the access
raises `AttributeError` and the call after it is dead code. Were the access
to succeed, `set.union` returns a fresh set that the source discards, so
`resulting_bugs` could still only reach `frozenset()` unchanged. -/
def BugProvider.find_all_pygit_bugs (github_project_name : Option String)
    (_project_name : String) : Except PyError (List PygitBug) := do
  let resulting_bugs : List PygitBug := []
  if optStrTruthy github_project_name then
    let _f ← bugModuleAttr "find_all_issue_pygit_bugs"
    pure ()
  let _g ← bugModuleAttr "find_all_commit_message_pygit_bugs"
  return resulting_bugs

/-- Embeds `BugProvider.find_all_raw_bugs` (bug_provider.py lines 68-83),
with the same structure as `BugProvider.find_all_pygit_bugs`: the accessed
names `find_all_issue_raw_bugs` and `find_all_commit_message_raw_bugs` are
not bound in bug.py. -/
def BugProvider.find_all_raw_bugs (github_project_name : Option String)
    (_project_name : String) : Except PyError (List RawBug) := do
  let resulting_bugs : List RawBug := []
  if optStrTruthy github_project_name then
    let _f ← bugModuleAttr "find_all_issue_raw_bugs"
    pure ()
  let _g ← bugModuleAttr "find_all_commit_message_raw_bugs"
  return resulting_bugs

/-- Embeds `BugDefaultProvider.find_all_pygit_bugs` (bug_provider.py lines
204-205): returns `frozenset()`. -/
def BugDefaultProvider.find_all_pygit_bugs : List PygitBug :=
  []

/-- Embeds `BugDefaultProvider.find_all_raw_bugs` (bug_provider.py lines
207-208). -/
def BugDefaultProvider.find_all_raw_bugs : List RawBug :=
  []

/-- Embeds `BugDefaultProvider.find_pygit_bug_by_fix` (bug_provider.py
lines 210-212). -/
def BugDefaultProvider.find_pygit_bug_by_fix (_fixing_commit : String) :
    List PygitBug :=
  []

/-- Embeds `BugDefaultProvider.find_raw_bug_by_fix` (bug_provider.py lines
214-216). -/
def BugDefaultProvider.find_raw_bug_by_fix (_fixing_commit : String) :
    List RawBug :=
  []

/-- Embeds `BugDefaultProvider.find_pygit_bug_by_introduction`
(bug_provider.py lines 218-221). -/
def BugDefaultProvider.find_pygit_bug_by_introduction
    (_introducing_commit : String) : List PygitBug :=
  []

/-- Embeds `BugDefaultProvider.find_raw_bug_by_introduction`
(bug_provider.py lines 223-226). -/
def BugDefaultProvider.find_raw_bug_by_introduction
    (_introducing_commit : String) : List RawBug :=
  []

/-- Concrete fixing commit used by the resolution-failure scenario. -/
def commitC5 : Commit :=
  ⟨"abc123", "fixes a crash\n"⟩

/-- Concrete project for the resolution-failure scenario: the first issue
event carries the unresolvable commit id "badbad", the second a resolvable
one; the history holds one resolvable closing commit. -/
def projectC5 : ProjectData :=
  ⟨[⟨"closed", some "badbad", ⟨3, [⟨"bug"⟩]⟩⟩,
    ⟨"closed", some "abc123", ⟨4, [⟨"bug"⟩]⟩⟩],
   ⟨[commitC5], fun s => if s = "abc123" then some commitC5 else none⟩⟩

/-- Concrete fixing commit used by the dual-discovery scenario. -/
def commitC7 : Commit :=
  ⟨"abc123", "fixes the crash\n"⟩

/-- Concrete project for the dual-discovery scenario: one tracker event and
one history commit both name the fixing identifier "abc123". -/
def projectC7 : ProjectData :=
  ⟨[⟨"closed", some "abc123", ⟨1, [⟨"bug"⟩]⟩⟩],
   ⟨[commitC7], fun s => if s = "abc123" then some commitC7 else none⟩⟩

/-- Concrete fixing commit used by the by-introduction scenarios. -/
def commitC10 : Commit :=
  ⟨"abc123", "fix bug\n"⟩

/-- Concrete project on which the by-introduction queries complete: every
closing identifier resolves and every walked message has a line break. -/
def projectC10good : ProjectData :=
  ⟨[⟨"closed", some "abc123", ⟨9, [⟨"bug"⟩]⟩⟩],
   ⟨[commitC10], fun s => if s = "abc123" then some commitC10 else none⟩⟩

/-- Concrete project on which the by-introduction queries raise: the single
issue event carries the unresolvable commit id "badbad". -/
def projectC10bad : ProjectData :=
  ⟨[⟨"closed", some "badbad", ⟨9, [⟨"bug"⟩]⟩⟩], ⟨[], fun _ => none⟩⟩

/-- Helper: `str.index` finds no position when the character is absent. -/
lemma pyStrIndex_eq_none (c : Char) :
    ∀ l : List Char, (∀ d ∈ l, d ≠ c) → pyStrIndex c l = none := by
  intro l h
  induction l with
  | nil => rfl
  | cons d rest ih =>
    unfold pyStrIndex
    rw [if_neg (h d (List.mem_cons_self d rest))]
    rw [ih fun x hx => h x (List.mem_cons_of_mem d hx)]
    rfl

/-- Helper: a successfully resolved `PygitBug` carries the stubbed, empty
introducing-commit list. -/
lemma search_pygit_ok_introducing_nil (closing : String) (repo : Repository)
    (num : Option Nat) (bug : PygitBug)
    (h : search_corresponding_pygit_bug closing repo num = .ok bug) :
    bug.introducing_commits = [] := by
  unfold search_corresponding_pygit_bug at h
  cases hrev : repo.revparse_single closing with
  | error e => rw [hrev] at h; simp at h
  | ok c =>
    rw [hrev] at h
    simp only [Except.ok.injEq] at h
    rw [← h]

/-- Helper: the issue closure of the pygit by-introduction query never
produces a bug (the introducing list of every resolved bug is empty). -/
lemma accept_issue_pybug_intro_no_bug (p : ProjectData) (ic : String)
    (ev : IssueEvent) (bug : PygitBug) :
    accept_issue_pybug_with_certain_introduction p ic ev ≠ .ok (some bug) := by
  intro h
  unfold accept_issue_pybug_with_certain_introduction at h
  by_cases hg : (has_closed_a_bug ev && optStrTruthy ev.commit_id) = true
  · rw [if_pos hg] at h
    cases hs : search_corresponding_pygit_bug (ev.commit_id.getD "") p.repo
        (some ev.issue.number) with
    | error e => rw [hs] at h; simp at h
    | ok pybug =>
      rw [hs] at h
      have hnil := search_pygit_ok_introducing_nil _ _ _ _ hs
      simp [hnil] at h
  · rw [if_neg hg] at h
    simp at h

/-- Helper: the commit closure of the pygit by-introduction query never
produces a bug. -/
lemma accept_commit_pybug_intro_no_bug (p : ProjectData) (ic : String)
    (commit : Commit) (bug : PygitBug) :
    accept_commit_pybug_with_certain_introduction p ic commit ≠
      .ok (some bug) := by
  intro h
  unfold accept_commit_pybug_with_certain_introduction at h
  cases hm : is_closing_message commit.message with
  | none => rw [hm] at h; simp at h
  | some b =>
    rw [hm] at h
    by_cases hb : b = true
    · rw [hb] at h
      simp only [if_true] at h
      cases hs : search_corresponding_pygit_bug commit.hex p.repo none with
      | error e => rw [hs] at h; simp at h
      | ok pybug =>
        rw [hs] at h
        have hnil := search_pygit_ok_introducing_nil _ _ _ _ hs
        simp [hnil] at h
    · rw [Bool.eq_false_iff.mpr hb] at h
      simp at h

/-- Helper: the issue closure of the raw by-introduction query never
produces a bug. -/
lemma accept_issue_rawbug_intro_no_bug (p : ProjectData) (ic : String)
    (ev : IssueEvent) (bug : RawBug) :
    accept_issue_rawbug_with_certain_introduction p ic ev ≠ .ok (some bug) := by
  intro h
  unfold accept_issue_rawbug_with_certain_introduction at h
  by_cases hg : (has_closed_a_bug ev && optStrTruthy ev.commit_id) = true
  · rw [if_pos hg] at h
    simp [search_corresponding_raw_bug] at h
  · rw [if_neg hg] at h
    simp at h

/-- Helper: the commit closure of the raw by-introduction query never
produces a bug. -/
lemma accept_commit_rawbug_intro_no_bug (p : ProjectData) (ic : String)
    (commit : Commit) (bug : RawBug) :
    accept_commit_rawbug_with_certain_introduction p ic commit ≠
      .ok (some bug) := by
  intro h
  unfold accept_commit_rawbug_with_certain_introduction at h
  cases hm : is_closing_message commit.message with
  | none => rw [hm] at h; simp at h
  | some b =>
    rw [hm] at h
    by_cases hb : b = true
    · rw [hb] at h
      simp [search_corresponding_raw_bug] at h
    · rw [Bool.eq_false_iff.mpr hb] at h
      simp at h

/-- Helper: when the issue filter never produces a bug, the issue-event
loop leaves the accumulated set unchanged. -/
lemma processIssueEventsPygit_id
    (flt : IssueEvent → Except PyError (Option PygitBug))
    (hf : ∀ ev bug, flt ev ≠ .ok (some bug)) :
    ∀ (evs : List IssueEvent) (s r : List PygitBug),
      processIssueEventsPygit flt evs s = .ok r → r = s := by
  intro evs
  induction evs with
  | nil =>
    intro s r h
    unfold processIssueEventsPygit at h
    exact (Except.ok.inj h).symm
  | cons ev rest ih =>
    intro s r h
    unfold processIssueEventsPygit at h
    cases hev : flt ev with
    | error e => rw [hev] at h; simp at h
    | ok ob =>
      cases ob with
      | none => rw [hev] at h; exact ih s r h
      | some bug => exact absurd hev (hf ev bug)

/-- Helper: same as `processIssueEventsPygit_id` for the commit loop. -/
lemma processCommitsPygit_id
    (flt : Commit → Except PyError (Option PygitBug))
    (hf : ∀ c bug, flt c ≠ .ok (some bug)) :
    ∀ (cs : List Commit) (s r : List PygitBug),
      processCommitsPygit flt cs s = .ok r → r = s := by
  intro cs
  induction cs with
  | nil =>
    intro s r h
    unfold processCommitsPygit at h
    exact (Except.ok.inj h).symm
  | cons c rest ih =>
    intro s r h
    unfold processCommitsPygit at h
    cases hc : flt c with
    | error e => rw [hc] at h; simp at h
    | ok ob =>
      cases ob with
      | none => rw [hc] at h; exact ih s r h
      | some bug => exact absurd hc (hf c bug)

/-- Helper: same as `processIssueEventsPygit_id` for raw bugs. -/
lemma processIssueEventsRaw_id
    (flt : IssueEvent → Except PyError (Option RawBug))
    (hf : ∀ ev bug, flt ev ≠ .ok (some bug)) :
    ∀ (evs : List IssueEvent) (s r : List RawBug),
      processIssueEventsRaw flt evs s = .ok r → r = s := by
  intro evs
  induction evs with
  | nil =>
    intro s r h
    unfold processIssueEventsRaw at h
    exact (Except.ok.inj h).symm
  | cons ev rest ih =>
    intro s r h
    unfold processIssueEventsRaw at h
    cases hev : flt ev with
    | error e => rw [hev] at h; simp at h
    | ok ob =>
      cases ob with
      | none => rw [hev] at h; exact ih s r h
      | some bug => exact absurd hev (hf ev bug)

/-- Helper: same as `processCommitsPygit_id` for raw bugs. -/
lemma processCommitsRaw_id
    (flt : Commit → Except PyError (Option RawBug))
    (hf : ∀ c bug, flt c ≠ .ok (some bug)) :
    ∀ (cs : List Commit) (s r : List RawBug),
      processCommitsRaw flt cs s = .ok r → r = s := by
  intro cs
  induction cs with
  | nil =>
    intro s r h
    unfold processCommitsRaw at h
    exact (Except.ok.inj h).symm
  | cons c rest ih =>
    intro s r h
    unfold processCommitsRaw at h
    cases hc : flt c with
    | error e => rw [hc] at h; simp at h
    | ok ob =>
      cases ob with
      | none => rw [hc] at h; exact ih s r h
      | some bug => exact absurd hc (hf c bug)

/-- C1: the claim says the provider's find-all queries return the union of
tracker-sourced and history-sourced bugs, and still all history-sourced
bugs when no tracker is configured. On the code they do neither: the
attribute access on the bug module raises `AttributeError` in both the
with-tracker and the no-tracker branch (and the `set.union` results are
discarded anyway), so the queries raise for every project instead of
returning any bugs. This theorem evaluates both provider methods at a
project with a tracker name and at one without. -/
theorem C1_provider_find_all_raises :
    BugProvider.find_all_pygit_bugs (some "owner/repo") "proj" =
      .error (.attributeError "find_all_issue_pygit_bugs") ∧
    BugProvider.find_all_pygit_bugs none "proj" =
      .error (.attributeError "find_all_commit_message_pygit_bugs") ∧
    BugProvider.find_all_raw_bugs (some "owner/repo") "proj" =
      .error (.attributeError "find_all_issue_raw_bugs") ∧
    BugProvider.find_all_raw_bugs none "proj" =
      .error (.attributeError "find_all_commit_message_raw_bugs") :=
  ⟨by rfl, by rfl, by rfl, by rfl⟩

/-- C2: the claim says Bug hashing never raises and is consistent with
equality. On the code, `__hash__` of both variants hashes a tuple whose
second component is a Python list, so hashing every Bug — including ones
with an empty introducing list — raises `TypeError`. -/
theorem C2_bug_hash_always_raises :
    (∀ bug : PygitBug,
      bug.pyhash = .error (.typeError "unhashable type: list")) ∧
    (∀ bug : RawBug,
      bug.pyhash = .error (.typeError "unhashable type: list")) :=
  ⟨fun _ => rfl, fun _ => rfl⟩

/-- C3: the claim says the commit-message detector returns false on every
message without a line break. On the code, `str.index` raises `ValueError`
on such messages (modelled by `none`), so the detector raises instead of
returning false. -/
theorem C3_detector_raises_without_newline :
    ∀ commit_message : String, (∀ c ∈ commit_message.data, c ≠ '\n') →
      is_closing_message commit_message = none := by
  intro commit_message h
  unfold is_closing_message
  rw [pyStrIndex_eq_none '\n' commit_message.data h]

/-- Witness for C3 at the empty message. -/
theorem C3_detector_raises_without_newline_witness :
    (∀ c ∈ ("" : String).data, c ≠ '\n') ∧ is_closing_message "" = none :=
  ⟨by decide, C3_detector_raises_without_newline "" (by decide)⟩

/-- C4: the claim gives three detector values; the two messages with a line
break behave as claimed (first line only, case-insensitive, no
word-boundary anchoring), but the detector applied to "prefixed build"
raises `ValueError` (no line break) instead of returning true. -/
theorem C4_detector_eval :
    is_closing_message "Fixes #12\nmore text" = some true ∧
    is_closing_message "Unrelated change\nfix later" = some false ∧
    is_closing_message "prefixed build" = none :=
  ⟨by decide, by decide, by rfl⟩

/-- C5: the claim says a resolution failure yields no bug for that single
event and the find-all query still completes with the other bugs. On the
code the `KeyError` from `revparse_single` is never caught: on a project
whose first issue event carries an unresolvable commit id, the whole
find-all query raises even though a second event and a history commit would
produce bugs. -/
theorem C5_resolution_failure_aborts_query :
    find_all_pygit_bugs projectC5 = .error (.keyError "badbad") := by
  rfl

/-- C6: the issue-close detector is true iff the event is a "closed" event
with an associated commit id and some label of its issue is named exactly
"bug"; in particular a capitalized "Bug" label does not satisfy it. -/
theorem C6_has_closed_a_bug_spec :
    (∀ e : IssueEvent, has_closed_a_bug e = true ↔
      e.event = "closed" ∧ e.commit_id ≠ none ∧
        ∃ l ∈ e.issue.labels, l.name = "bug") ∧
    has_closed_a_bug ⟨"closed", some "c0ffee", ⟨1, [⟨"Bug"⟩]⟩⟩ = false := by
  constructor
  · intro e
    unfold has_closed_a_bug
    split
    · rename_i h
      refine iff_of_false (by simp) ?_
      rintro ⟨h1, h2, _⟩
      rcases h with h | h
      · exact h h1
      · exact h2 h
    · rename_i h
      push_neg at h
      obtain ⟨h1, h2⟩ := h
      simp [List.any_eq_true, h1, h2]
  · decide

/-- C7: a tracker-discovered bug (with an issue number) and a
message-discovered bug (without one) for the same fixing identifier are not
equal, as the claim says; but the find-all query does not return a set
containing both — inserting the first bug into the result set raises
`TypeError` because Bug hashing hashes a list. -/
theorem C7_dual_discovery :
    RawBug.pyEq ⟨"abc123", [], some 1⟩ ⟨"abc123", [], none⟩ = false ∧
    RawBug.mk "abc123" [] (some 1) ≠ RawBug.mk "abc123" [] none ∧
    find_all_raw_bugs projectC7 = .error (.typeError "unhashable type: list") :=
  ⟨by decide, by decide, by rfl⟩

/-- C8: Bug equality compares the introducing-commit sequence as an ordered
list, so two bugs of the same variant that agree on fixing change and issue
id but permute their introducing sequences are unequal, under Python
equality and structural equality alike, and a list holding both has no
duplicates. -/
theorem C8_introducing_order_sensitive :
    (∀ (f : Commit) (i : Option Nat) (l1 l2 : List Commit),
      l1.Perm l2 → l1 ≠ l2 →
      PygitBug.pyEq ⟨f, l1, i⟩ ⟨f, l2, i⟩ = false ∧
      PygitBug.mk f l1 i ≠ PygitBug.mk f l2 i ∧
      [PygitBug.mk f l1 i, PygitBug.mk f l2 i].Nodup) ∧
    (∀ (s : String) (i : Option Nat) (l1 l2 : List String),
      l1.Perm l2 → l1 ≠ l2 →
      RawBug.pyEq ⟨s, l1, i⟩ ⟨s, l2, i⟩ = false ∧
      RawBug.mk s l1 i ≠ RawBug.mk s l2 i ∧
      [RawBug.mk s l1 i, RawBug.mk s l2 i].Nodup) := by
  constructor
  · intro f i l1 l2 _ hne
    refine ⟨by simp [PygitBug.pyEq, hne], ?_, ?_⟩
    · intro h
      exact hne (congrArg PygitBug.introducing_commits h)
    · simp only [List.nodup_cons, List.mem_singleton, List.not_mem_nil,
        not_false_iff, List.nodup_nil, and_true]
      intro h
      exact hne (congrArg PygitBug.introducing_commits h)
  · intro s i l1 l2 _ hne
    refine ⟨by simp [RawBug.pyEq, hne], ?_, ?_⟩
    · intro h
      exact hne (congrArg RawBug.introducing_commits h)
    · simp only [List.nodup_cons, List.mem_singleton, List.not_mem_nil,
        not_false_iff, List.nodup_nil, and_true]
      intro h
      exact hne (congrArg RawBug.introducing_commits h)

/-- Witness for C8 at two two-element permuted lists. -/
theorem C8_introducing_order_sensitive_witness :
    (([⟨"c1", "m\n"⟩, ⟨"c2", "m\n"⟩] : List Commit).Perm
        [⟨"c2", "m\n"⟩, ⟨"c1", "m\n"⟩] ∧
      ([⟨"c1", "m\n"⟩, ⟨"c2", "m\n"⟩] : List Commit) ≠
        [⟨"c2", "m\n"⟩, ⟨"c1", "m\n"⟩]) ∧
    PygitBug.pyEq ⟨⟨"f0", "fix it\n"⟩, [⟨"c1", "m\n"⟩, ⟨"c2", "m\n"⟩], none⟩
      ⟨⟨"f0", "fix it\n"⟩, [⟨"c2", "m\n"⟩, ⟨"c1", "m\n"⟩], none⟩ = false :=
  ⟨⟨List.Perm.swap (⟨"c2", "m\n"⟩ : Commit) ⟨"c1", "m\n"⟩ [], by decide⟩,
    (C8_introducing_order_sensitive.1 ⟨"f0", "fix it\n"⟩ none
      [⟨"c1", "m\n"⟩, ⟨"c2", "m\n"⟩] [⟨"c2", "m\n"⟩, ⟨"c1", "m\n"⟩]
      (List.Perm.swap (⟨"c2", "m\n"⟩ : Commit) ⟨"c1", "m\n"⟩ [])
      (by decide)).1⟩

/-- C9: the default (null) provider answers every one of its six queries
with the empty set, for every argument. -/
theorem C9_default_provider_empty :
    BugDefaultProvider.find_all_pygit_bugs = [] ∧
    BugDefaultProvider.find_all_raw_bugs = [] ∧
    (∀ fixing_commit : String,
      BugDefaultProvider.find_pygit_bug_by_fix fixing_commit = [] ∧
      BugDefaultProvider.find_raw_bug_by_fix fixing_commit = []) ∧
    (∀ introducing_commit : String,
      BugDefaultProvider.find_pygit_bug_by_introduction introducing_commit
        = [] ∧
      BugDefaultProvider.find_raw_bug_by_introduction introducing_commit
        = []) :=
  ⟨rfl, rfl, fun _ => ⟨rfl, rfl⟩, fun _ => ⟨rfl, rfl⟩⟩

/-- C10 counterexample: the claim says the by-introduction queries return
the empty set for every project and identifier, but on a project whose only
issue event carries an unresolvable commit id the pygit query raises
`KeyError` instead of returning anything. -/
theorem C10_counterexample_raises :
    find_pygit_bug_by_introduction projectC10bad "xyz" =
      .error (.keyError "badbad") ∧
    (Except.error (PyError.keyError "badbad") :
      Except PyError (List PygitBug)) ≠ .ok [] :=
  ⟨by rfl, fun h => Except.noConfusion h⟩

/-- C10 (amended): every Bug the resolver constructs has an empty
introducing-commit sequence, and whenever a by-introduction query completes
without raising, it returns the empty set. -/
theorem C10_introduction_queries_empty :
    (∀ (closing : String) (repo : Repository) (num : Option Nat)
        (bug : PygitBug),
      search_corresponding_pygit_bug closing repo num = .ok bug →
        bug.introducing_commits = []) ∧
    (∀ (closing : String) (repo : Repository) (num : Option Nat),
      (search_corresponding_raw_bug closing repo num).introducing_commits
        = []) ∧
    (∀ (p : ProjectData) (ic : String) (res : List PygitBug),
      find_pygit_bug_by_introduction p ic = .ok res → res = []) ∧
    (∀ (p : ProjectData) (ic : String) (res : List RawBug),
      find_raw_bug_by_introduction p ic = .ok res → res = []) := by
  refine ⟨search_pygit_ok_introducing_nil, fun _ _ _ => rfl, ?_, ?_⟩
  · intro p ic res h
    unfold find_pygit_bug_by_introduction filter_all_pygit_bugs at h
    cases hpi : processIssueEventsPygit
        (accept_issue_pybug_with_certain_introduction p ic)
        p.issue_events [] with
    | error e => rw [hpi] at h; simp at h
    | ok s1 =>
      rw [hpi] at h
      have hs1 : s1 = [] := processIssueEventsPygit_id _
        (fun ev bug => accept_issue_pybug_intro_no_bug p ic ev bug)
        p.issue_events [] s1 hpi
      have hres : res = s1 := processCommitsPygit_id _
        (fun c bug => accept_commit_pybug_intro_no_bug p ic c bug)
        p.repo.commits s1 res h
      rw [hres, hs1]
  · intro p ic res h
    unfold find_raw_bug_by_introduction filter_all_raw_bugs at h
    cases hpi : processIssueEventsRaw
        (accept_issue_rawbug_with_certain_introduction p ic)
        p.issue_events [] with
    | error e => rw [hpi] at h; simp at h
    | ok s1 =>
      rw [hpi] at h
      have hs1 : s1 = [] := processIssueEventsRaw_id _
        (fun ev bug => accept_issue_rawbug_intro_no_bug p ic ev bug)
        p.issue_events [] s1 hpi
      have hres : res = s1 := processCommitsRaw_id _
        (fun c bug => accept_commit_rawbug_intro_no_bug p ic c bug)
        p.repo.commits s1 res h
      rw [hres, hs1]

/-- Witness for C10 at a project on which the raw by-introduction query
completes. -/
theorem C10_introduction_queries_empty_witness :
    find_raw_bug_by_introduction projectC10good "xyz" = .ok [] ∧
    ([] : List RawBug) = [] :=
  ⟨by rfl, C10_introduction_queries_empty.2.2.2 projectC10good "xyz" []
    (by rfl)⟩

end Vara
